import Mathlib

/-!
Shallow embedding of `app.py` (RAG-based document assistant, Streamlit UI).

The script is modelled as a step function over an explicit application
state.  One `step` is one Streamlit script run triggered by a user action
(at most one button fires per run).  The sidebar handlers (Save API Key,
Process Document) run first, then the main pane (load_dotenv, gating,
Get Answer handler), exactly as the statements appear top-to-bottom in
the script.

File-system and OS effects are made explicit:
  - the upload directory `data` is a list of named entries, each a
    regular file, a symlink, or a directory (`os.path.isfile` /
    `os.path.islink` / neither); `unlinkFails` is the oracle for
    whether `os.unlink` on that entry raises (the source catches such
    failures per entry and reports them without aborting);
  - the `.env` file is represented by its existence flag and the value
    of its `GROQ_API_KEY` entry; `envWritable` is the oracle for whether
    opening/writing `.env` raises an `OSError`;
  - `os.environ["GROQ_API_KEY"]` is `ProcEnv.groqEnv`;
  - the backend collaborators `load_all_documents` and
    `FaissVectorStore.build_from_documents` are opaque: a `Backend`
    record carries the outcome of the one call the action makes
    (`Except.error` models a raised exception);
  - `RAGSearch.search_and_summarize` likewise: its outcome is carried
    by the `getAnswer` action.

Exception flow is explicit: a handler body that raises yields an
`Except.error` / `raised` value; a surrounding `try/except` in the
source turns it into an error message, and where the source has no
`try/except` the exception escapes the run (`StepResult.uncaught`).
-/

namespace RAGApp

/-- Kind of a directory entry, as classified by the clearing loop of
`save_uploaded_file`: `os.path.isfile`, `os.path.islink`, or a real
directory (neither). -/
inductive EntryKind where
  | file
  | symlink
  | dir
deriving DecidableEq, Repr

/-- One entry of the upload directory.  `unlinkFails` is the environment
oracle: does `os.unlink` on this entry raise? -/
structure Entry where
  name : String
  kind : EntryKind
  unlinkFails : Bool
deriving DecidableEq, Repr

/-- UI messages emitted by the script (st.error / st.success / st.warning /
st.info / st.write / st.subheader / st.markdown calls relevant to the
modelled behaviour). -/
inductive Msg where
  | successKeySaved
  | errorEnterValidKey
  | errorFailedDelete (name : String)
  | writeLoadedChunks (n : Nat)
  | successIndexBuilt
  | errorProcessing (e : String)
  | warningNeedKey
  | infoUploadFirst
  | subheaderSummary
  | markdownAnswer (t : String)
  | errorAnswer (e : String)
  | warningEnterQuery
deriving DecidableEq, Repr

/-- File-system state visible to the script: the upload directory `data`
and the `.env` file (only its `GROQ_API_KEY` entry matters to the
script).  `envWritable` is the oracle for whether writing `.env`
succeeds. -/
structure Fs where
  dataDirPresent : Bool
  dataDir : List Entry
  envFilePresent : Bool
  envGroqKey : Option String
  envWritable : Bool
deriving DecidableEq, Repr

/-- Process environment: `os.environ["GROQ_API_KEY"]` (`none` = unset). -/
structure ProcEnv where
  groqEnv : Option String
deriving DecidableEq, Repr

/-- Streamlit session state: the single flag the script keeps. -/
structure Session where
  vector_store_ready : Bool
deriving DecidableEq, Repr

/-- Whole application state. -/
structure AppState where
  fs : Fs
  env : ProcEnv
  session : Session
deriving DecidableEq, Repr

/-- Session-state init at the top of the script: on the first run the flag
is absent, so it is set to `False`. -/
def initialState (fs : Fs) (pe : ProcEnv) : AppState :=
  { fs := fs, env := pe, session := { vector_store_ready := false } }

/-- `save_api_key`: create `.env` if missing, `set_key` the entry, mirror
into `os.environ`.  The file operations raise `OSError` when `.env` is
not writable; nothing in the function catches it. -/
def save_api_key (key : String) (fs : Fs) (_pe : ProcEnv) :
    Except String (Fs × ProcEnv) :=
  if fs.envWritable then
    Except.ok
      ({ fs with envFilePresent := true, envGroqKey := some key },
       { groqEnv := some key })
  else
    Except.error "OSError"

/-- The clearing loop of `save_uploaded_file`: for each entry that is a
regular file or a symlink, try `os.unlink`; a failure is caught, an
error message is emitted, and the loop continues.  Directories are left
alone.  Returns the surviving entries and the emitted messages, in
directory order. -/
def clearEntries : List Entry → List Entry × List Msg
  | [] => ([], [])
  | e :: rest =>
    let r := clearEntries rest
    match e.kind with
    | EntryKind.dir => (e :: r.1, r.2)
    | EntryKind.file =>
      if e.unlinkFails then (e :: r.1, Msg.errorFailedDelete e.name :: r.2)
      else r
    | EntryKind.symlink =>
      if e.unlinkFails then (e :: r.1, Msg.errorFailedDelete e.name :: r.2)
      else r

/-- The in-memory uploaded file.  Only its name is relevant to the
modelled state: its bytes are written to disk but never inspected by
the script. -/
structure UploadedFile where
  name : String
deriving DecidableEq, Repr

/-- Upload-directory contents after `os.makedirs` (when missing) and the
clearing loop of `save_uploaded_file`. -/
def afterClear (fs : Fs) : List Entry :=
  (clearEntries (if fs.dataDirPresent then fs.dataDir else [])).1

/-- Messages emitted by the clearing loop. -/
def clearMsgs (fs : Fs) : List Msg :=
  (clearEntries (if fs.dataDirPresent then fs.dataDir else [])).2

/-- The final `open(file_path, "wb")` of `save_uploaded_file` raises
(`IsADirectoryError`) exactly when a directory with the uploaded file's
name survived the clearing loop. -/
def writeRaises (up : UploadedFile) (fs : Fs) : Prop :=
  ∃ e ∈ afterClear fs, e.name = up.name ∧ e.kind = EntryKind.dir

instance (up : UploadedFile) (fs : Fs) : Decidable (writeRaises up fs) := by
  unfold writeRaises
  exact List.decidableBEx _ _

/-- Outcome of one `save_uploaded_file` call: the new file-system state,
the messages shown, and the exception (if any) that escaped the call. -/
structure SaveOutcome where
  fs : Fs
  msgs : List Msg
  raised : Option String
deriving DecidableEq, Repr

/-- `save_uploaded_file`: ensure `data` exists, clear its regular files
and symlinks (reporting, not aborting on, per-entry failures), then
write the uploaded file under its original name.  When the write raises,
the deletions have already happened and no new file is created. -/
def save_uploaded_file (up : UploadedFile) (fs : Fs) : SaveOutcome :=
  if writeRaises up fs then
    { fs := { fs with dataDirPresent := true, dataDir := afterClear fs },
      msgs := clearMsgs fs,
      raised := some "IsADirectoryError" }
  else
    { fs :=
        { fs with
          dataDirPresent := true,
          dataDir :=
            (afterClear fs).filter (fun e => e.name != up.name) ++
              [{ name := up.name, kind := EntryKind.file,
                 unlinkFails := false }] },
      msgs := clearMsgs fs,
      raised := none }

/-- Outcomes of the backend calls made by one Process Document action:
`load_all_documents` returns a chunk list (only its length is used by
the script) or raises; constructing `FaissVectorStore` and running
`build_from_documents` succeeds or raises. -/
structure Backend where
  loadResult : Except String Nat
  buildResult : Except String Unit

/-- The user action that triggers one script run.  At most one button
fires per run.  `processDoc` carries the uploader's current file (the
button only exists when it is `some`) and the backend outcomes;
`getAnswer` carries the query text and the outcome of
`search_and_summarize`. -/
inductive UserAction where
  | idle
  | saveKey (input : String)
  | processDoc (uploaded : Option UploadedFile) (bk : Backend)
  | getAnswer (query : String) (result : Except String String)

/-- Result of the sidebar section of one run. -/
structure SidebarResult where
  state : AppState
  msgs : List Msg
  uncaught : Option String

/-- The sidebar: the Save API Key handler (note: no `try/except` around
`save_api_key`, so its exception escapes) and the Process Document
handler (whole body inside `try/except`). -/
def sidebar (a : UserAction) (s : AppState) : SidebarResult :=
  match a with
  | UserAction.saveKey input =>
    if input != "" then
      match save_api_key input s.fs s.env with
      | Except.ok fe =>
        { state := { s with fs := fe.1, env := fe.2 },
          msgs := [Msg.successKeySaved], uncaught := none }
      | Except.error e => { state := s, msgs := [], uncaught := some e }
    else { state := s, msgs := [Msg.errorEnterValidKey], uncaught := none }
  | UserAction.processDoc none _ => { state := s, msgs := [], uncaught := none }
  | UserAction.processDoc (some up) bk =>
    match (save_uploaded_file up s.fs).raised with
    | some e =>
      { state := { s with fs := (save_uploaded_file up s.fs).fs },
        msgs := (save_uploaded_file up s.fs).msgs ++ [Msg.errorProcessing e],
        uncaught := none }
    | none =>
      match bk.loadResult with
      | Except.error e =>
        { state := { s with fs := (save_uploaded_file up s.fs).fs },
          msgs := (save_uploaded_file up s.fs).msgs ++ [Msg.errorProcessing e],
          uncaught := none }
      | Except.ok n =>
        match bk.buildResult with
        | Except.error e =>
          { state := { s with fs := (save_uploaded_file up s.fs).fs },
            msgs := (save_uploaded_file up s.fs).msgs ++
              [Msg.writeLoadedChunks n, Msg.errorProcessing e],
            uncaught := none }
        | Except.ok _ =>
          { state :=
              { s with
                fs := (save_uploaded_file up s.fs).fs,
                session := { vector_store_ready := true } },
            msgs := (save_uploaded_file up s.fs).msgs ++
              [Msg.writeLoadedChunks n, Msg.successIndexBuilt],
            uncaught := none }
  | UserAction.getAnswer _ _ => { state := s, msgs := [], uncaught := none }
  | UserAction.idle => { state := s, msgs := [], uncaught := none }

/-- `load_dotenv()`: loads `.env` entries into `os.environ` without
overriding variables that are already set. -/
def load_dotenv (s : AppState) : AppState :=
  match s.env.groqEnv with
  | some _ => s
  | none =>
    { s with env :=
        { groqEnv := if s.fs.envFilePresent then s.fs.envGroqKey else none } }

/-- Truthiness of `os.getenv("GROQ_API_KEY")` in
`if not os.getenv("GROQ_API_KEY")`: unset and empty are both falsy. -/
def getenvTruthy : Option String → Bool
  | none => false
  | some v => v != ""

/-- Result of the main pane of one run. -/
structure PaneResult where
  state : AppState
  msgs : List Msg
  queryUIShown : Bool
  searchCalled : Bool

/-- The main pane: `load_dotenv`, the two gating checks, and (when the
query UI is rendered and the action is Get Answer) the answer handler,
whose body is inside `try/except`.  `searchCalled` records that
`RAGSearch` was constructed and `search_and_summarize` invoked. -/
def mainPane (a : UserAction) (s : AppState) : PaneResult :=
  if getenvTruthy (load_dotenv s).env.groqEnv = false then
    { state := load_dotenv s, msgs := [Msg.warningNeedKey],
      queryUIShown := false, searchCalled := false }
  else if (load_dotenv s).session.vector_store_ready = false then
    { state := load_dotenv s, msgs := [Msg.infoUploadFirst],
      queryUIShown := false, searchCalled := false }
  else
    match a with
    | UserAction.getAnswer q res =>
      if q != "" then
        match res with
        | Except.ok ans =>
          { state := load_dotenv s,
            msgs := [Msg.subheaderSummary, Msg.markdownAnswer ans],
            queryUIShown := true, searchCalled := true }
        | Except.error e =>
          { state := load_dotenv s, msgs := [Msg.errorAnswer e],
            queryUIShown := true, searchCalled := true }
      else
        { state := load_dotenv s, msgs := [Msg.warningEnterQuery],
          queryUIShown := true, searchCalled := false }
    | _ =>
      { state := load_dotenv s, msgs := [],
        queryUIShown := true, searchCalled := false }

/-- Result of one whole script run. -/
structure StepResult where
  state : AppState
  msgs : List Msg
  queryUIShown : Bool
  searchCalled : Bool
  uncaught : Option String

/-- One script run: sidebar first; if an exception escaped a sidebar
handler the run aborts there, otherwise the main pane runs on the
updated state. -/
def step (a : UserAction) (s : AppState) : StepResult :=
  match (sidebar a s).uncaught with
  | some e =>
    { state := (sidebar a s).state, msgs := (sidebar a s).msgs,
      queryUIShown := false, searchCalled := false, uncaught := some e }
  | none =>
    { state := (mainPane a (sidebar a s).state).state,
      msgs := (sidebar a s).msgs ++ (mainPane a (sidebar a s).state).msgs,
      queryUIShown := (mainPane a (sidebar a s).state).queryUIShown,
      searchCalled := (mainPane a (sidebar a s).state).searchCalled,
      uncaught := none }

/-- A session: the state after a sequence of script runs. -/
def run (s : AppState) : List UserAction → AppState
  | [] => s
  | a :: rest => run (step a s).state rest

/-- A successful Process Document action from state `s`: the uploader
holds a file, `save_uploaded_file` does not raise, and both backend
calls succeed — the only way the script sets `vector_store_ready`. -/
def processSuccess (a : UserAction) (s : AppState) : Prop :=
  ∃ up bk, a = UserAction.processDoc (some up) bk ∧
    (save_uploaded_file up s.fs).raised = none ∧
    (∃ n, bk.loadResult = Except.ok n) ∧ bk.buildResult = Except.ok ()

/-! Concrete sample states used by counterexamples and witnesses. -/

/-- A state with credential saved and index built: the query UI is live. -/
def sReady : AppState :=
  { fs :=
      { dataDirPresent := true, dataDir := [], envFilePresent := true,
        envGroqKey := some "k", envWritable := true },
    env := { groqEnv := some "k" },
    session := { vector_store_ready := true } }

/-- A fresh state whose upload directory holds one subdirectory. -/
def sSubdir : AppState :=
  { fs :=
      { dataDirPresent := true,
        dataDir := [{ name := "sub", kind := EntryKind.dir,
                      unlinkFails := false }],
        envFilePresent := false, envGroqKey := none, envWritable := true },
    env := { groqEnv := none },
    session := { vector_store_ready := false } }

/-- A fresh state in which `.env` cannot be written. -/
def sUnwritable : AppState :=
  { fs :=
      { dataDirPresent := true, dataDir := [], envFilePresent := false,
        envGroqKey := none, envWritable := false },
    env := { groqEnv := none },
    session := { vector_store_ready := false } }

/-- Backend outcomes in which both calls succeed. -/
def bkOk : Backend :=
  { loadResult := Except.ok 3, buildResult := Except.ok () }

/-- Backend outcomes in which `load_all_documents` raises. -/
def bkLoadFail : Backend :=
  { loadResult := Except.error "boom", buildResult := Except.ok () }

/-- A sample uploaded file. -/
def upDoc : UploadedFile := { name := "doc.txt" }

/-! Helper lemmas about the embedding. -/

/-- Every entry surviving the clearing loop was in the directory and is a
directory or an entry whose unlink failed. -/
lemma clearEntries_mem {l : List Entry} {e : Entry}
    (h : e ∈ (clearEntries l).1) :
    e ∈ l ∧ (e.kind = EntryKind.dir ∨ e.unlinkFails = true) := by
  induction l with
  | nil => simp [clearEntries] at h
  | cons a rest ih =>
    cases hk : a.kind with
    | dir =>
      simp only [clearEntries, hk] at h
      rcases List.mem_cons.mp h with rfl | h2
      · exact ⟨List.mem_cons_self _ _, Or.inl hk⟩
      · rcases ih h2 with ⟨h3, h4⟩
        exact ⟨List.mem_cons_of_mem _ h3, h4⟩
    | file =>
      by_cases ha : a.unlinkFails = true
      · simp only [clearEntries, hk, ha, if_true] at h
        rcases List.mem_cons.mp h with rfl | h2
        · exact ⟨List.mem_cons_self _ _, Or.inr ha⟩
        · rcases ih h2 with ⟨h3, h4⟩
          exact ⟨List.mem_cons_of_mem _ h3, h4⟩
      · simp only [clearEntries, hk, ha, if_false] at h
        rcases ih h with ⟨h3, h4⟩
        exact ⟨List.mem_cons_of_mem _ h3, h4⟩
    | symlink =>
      by_cases ha : a.unlinkFails = true
      · simp only [clearEntries, hk, ha, if_true] at h
        rcases List.mem_cons.mp h with rfl | h2
        · exact ⟨List.mem_cons_self _ _, Or.inr ha⟩
        · rcases ih h2 with ⟨h3, h4⟩
          exact ⟨List.mem_cons_of_mem _ h3, h4⟩
      · simp only [clearEntries, hk, ha, if_false] at h
        rcases ih h with ⟨h3, h4⟩
        exact ⟨List.mem_cons_of_mem _ h3, h4⟩

/-- Every directory entry survives the clearing loop. -/
lemma clearEntries_dir_mem {l : List Entry} {e : Entry} (he : e ∈ l)
    (hk : e.kind = EntryKind.dir) : e ∈ (clearEntries l).1 := by
  induction l with
  | nil => cases he
  | cons a rest ih =>
    rcases List.mem_cons.mp he with rfl | h2
    · simp [clearEntries, hk]
    · cases hka : a.kind with
      | dir =>
        simp only [clearEntries, hka]
        exact List.mem_cons_of_mem _ (ih h2)
      | file =>
        by_cases ha : a.unlinkFails = true
        · simp only [clearEntries, hka, ha, if_true]
          exact List.mem_cons_of_mem _ (ih h2)
        · simp only [clearEntries, hka, ha, if_false]
          exact ih h2
      | symlink =>
        by_cases ha : a.unlinkFails = true
        · simp only [clearEntries, hka, ha, if_true]
          exact List.mem_cons_of_mem _ (ih h2)
        · simp only [clearEntries, hka, ha, if_false]
          exact ih h2

lemma afterClear_mem {fs : Fs} {e : Entry} (h : e ∈ afterClear fs) :
    e.kind = EntryKind.dir ∨ e.unlinkFails = true :=
  (clearEntries_mem h).2

lemma mem_afterClear_of_dir {fs : Fs} {e : Entry}
    (hp : fs.dataDirPresent = true) (he : e ∈ fs.dataDir)
    (hk : e.kind = EntryKind.dir) : e ∈ afterClear fs := by
  unfold afterClear
  rw [hp]
  exact clearEntries_dir_mem he hk

lemma save_not_raises {up : UploadedFile} {fs : Fs}
    (hs : (save_uploaded_file up fs).raised = none) : ¬ writeRaises up fs := by
  by_cases h : writeRaises up fs
  · simp [save_uploaded_file, h] at hs
  · exact h

lemma save_raised_none_dataDir {up : UploadedFile} {fs : Fs}
    (hs : (save_uploaded_file up fs).raised = none) :
    (save_uploaded_file up fs).fs.dataDir =
      (afterClear fs).filter (fun e => e.name != up.name) ++
        [{ name := up.name, kind := EntryKind.file, unlinkFails := false }] := by
  have h := save_not_raises hs
  simp [save_uploaded_file, h]

lemma save_raises_dataDir {up : UploadedFile} {fs : Fs}
    (h : writeRaises up fs) :
    (save_uploaded_file up fs).fs.dataDir = afterClear fs := by
  simp [save_uploaded_file, h]

lemma load_dotenv_fs (s : AppState) : (load_dotenv s).fs = s.fs := by
  unfold load_dotenv
  cases h : s.env.groqEnv <;> simp [h]

lemma load_dotenv_session (s : AppState) :
    (load_dotenv s).session = s.session := by
  unfold load_dotenv
  cases h : s.env.groqEnv <;> simp [h]

lemma mainPane_state (a : UserAction) (s : AppState) :
    (mainPane a s).state = load_dotenv s := by
  unfold mainPane
  split
  · rfl
  split
  · rfl
  cases a with
  | getAnswer q res =>
    by_cases hq : (q != "") = true
    · simp only [hq, if_true]
      cases res <;> rfl
    · simp [hq]
  | idle => rfl
  | saveKey input => rfl
  | processDoc u bk => rfl

lemma step_state_of_none {a : UserAction} {s : AppState}
    (h : (sidebar a s).uncaught = none) :
    (step a s).state = load_dotenv (sidebar a s).state := by
  simp only [step, h, mainPane_state]

lemma step_state_session (a : UserAction) (s : AppState) :
    (step a s).state.session = (sidebar a s).state.session := by
  cases h : (sidebar a s).uncaught with
  | none => rw [step_state_of_none h, load_dotenv_session]
  | some e => simp [step, h]

lemma step_state_fs (a : UserAction) (s : AppState) :
    (step a s).state.fs = (sidebar a s).state.fs := by
  cases h : (sidebar a s).uncaught with
  | none => rw [step_state_of_none h, load_dotenv_fs]
  | some e => simp [step, h]

lemma sidebar_process_success {s : AppState} {up : UploadedFile}
    {bk : Backend} {n : Nat}
    (hs : (save_uploaded_file up s.fs).raised = none)
    (hl : bk.loadResult = Except.ok n)
    (hb : bk.buildResult = Except.ok ()) :
    sidebar (UserAction.processDoc (some up) bk) s =
      { state :=
          { s with
            fs := (save_uploaded_file up s.fs).fs,
            session := { vector_store_ready := true } },
        msgs := (save_uploaded_file up s.fs).msgs ++
          [Msg.writeLoadedChunks n, Msg.successIndexBuilt],
        uncaught := none } := by
  simp only [sidebar, hs, hl, hb]

lemma save_dataDirPresent (up : UploadedFile) (fs : Fs) :
    (save_uploaded_file up fs).fs.dataDirPresent = true := by
  by_cases h : writeRaises up fs <;> simp [save_uploaded_file, h]

lemma mem_of_mem_afterClear {fs : Fs} {e : Entry}
    (hp : fs.dataDirPresent = true) (h : e ∈ afterClear fs) :
    e ∈ fs.dataDir := by
  unfold afterClear at h
  rw [hp] at h
  simp at h
  exact (clearEntries_mem h).1

lemma step_of_sidebar_none {a : UserAction} {s st : AppState} {L : List Msg}
    (hsb : sidebar a s = { state := st, msgs := L, uncaught := none }) :
    (step a s).uncaught = none ∧ (step a s).state.session = st.session ∧
    (step a s).state.fs = st.fs ∧
    (step a s).msgs = L ++ (mainPane a st).msgs := by
  have hu : (sidebar a s).uncaught = none := by rw [hsb]
  refine ⟨by simp [step, hu], ?_, ?_, ?_⟩
  · rw [step_state_session, hsb]
  · rw [step_state_fs, hsb]
  · simp [step, hu, hsb]

lemma sidebar_session_mono (a : UserAction) (s : AppState)
    (h : s.session.vector_store_ready = true) :
    (sidebar a s).state.session.vector_store_ready = true := by
  cases a with
  | idle => exact h
  | getAnswer q res => exact h
  | saveKey input =>
    by_cases hi : (input != "") = true
    · cases hsk : save_api_key input s.fs s.env with
      | ok fe => simpa [sidebar, hi, hsk] using h
      | error e => simpa [sidebar, hi, hsk] using h
    · simpa [sidebar, hi] using h
  | processDoc u bk =>
    cases u with
    | none => exact h
    | some up =>
      cases hr : (save_uploaded_file up s.fs).raised with
      | some e => simpa [sidebar, hr] using h
      | none =>
        cases hl : bk.loadResult with
        | error e => simpa [sidebar, hr, hl] using h
        | ok n =>
          cases hb : bk.buildResult with
          | error e => simpa [sidebar, hr, hl, hb] using h
          | ok u2 => simp [sidebar, hr, hl, hb]

lemma mainPane_shown_of_gates (a : UserAction) (s : AppState)
    (h1 : ¬ getenvTruthy (load_dotenv s).env.groqEnv = false)
    (h2 : ¬ (load_dotenv s).session.vector_store_ready = false) :
    (mainPane a s).queryUIShown = true := by
  unfold mainPane
  rw [if_neg h1, if_neg h2]
  split
  · split
    · split <;> rfl
    · rfl
  · rfl

lemma mainPane_shown_gate (a : UserAction) (s : AppState)
    (h : (mainPane a s).queryUIShown = true) :
    getenvTruthy (mainPane a s).state.env.groqEnv = true ∧
    (mainPane a s).state.session.vector_store_ready = true := by
  rw [mainPane_state]
  by_cases h1 : getenvTruthy (load_dotenv s).env.groqEnv = false
  · unfold mainPane at h
    rw [if_pos h1] at h
    simp at h
  · by_cases h2 : (load_dotenv s).session.vector_store_ready = false
    · unfold mainPane at h
      rw [if_neg h1, if_pos h2] at h
      simp at h
    · cases hx : getenvTruthy (load_dotenv s).env.groqEnv with
      | false => exact absurd hx h1
      | true =>
        cases hy : (load_dotenv s).session.vector_store_ready with
        | false => exact absurd hy h2
        | true => exact ⟨rfl, rfl⟩

lemma mainPane_called_shown (a : UserAction) (s : AppState)
    (h : (mainPane a s).searchCalled = true) :
    (mainPane a s).queryUIShown = true := by
  by_cases h1 : getenvTruthy (load_dotenv s).env.groqEnv = false
  · unfold mainPane at h
    rw [if_pos h1] at h
    simp at h
  · by_cases h2 : (load_dotenv s).session.vector_store_ready = false
    · unfold mainPane at h
      rw [if_neg h1, if_pos h2] at h
      simp at h
    · exact mainPane_shown_of_gates a s h1 h2

/-! Claim theorems. -/

/-- C1 counterexample: from a state whose upload directory holds one
subdirectory, a Process Document action in which `save_uploaded_file`,
`load_all_documents` and `build_from_documents` all succeed leaves the
flag true but TWO entries in `data` (the subdirectory survives the
clearing loop), refuting "exactly one entry". -/
theorem C1_counterexample :
    (save_uploaded_file upDoc sSubdir.fs).raised = none ∧
    bkOk.loadResult = Except.ok 3 ∧ bkOk.buildResult = Except.ok () ∧
    (step (UserAction.processDoc (some upDoc) bkOk) sSubdir).uncaught =
      none ∧
    (step (UserAction.processDoc (some upDoc) bkOk)
        sSubdir).state.session.vector_store_ready = true ∧
    (step (UserAction.processDoc (some upDoc) bkOk)
        sSubdir).state.fs.dataDir.length = 2 := by
  refine ⟨by decide, rfl, rfl, by decide, by decide, by decide⟩

/-- C1 (amended): after a Process Document action in which
`save_uploaded_file`, `load_all_documents` and `build_from_documents`
all succeed, `vector_store_ready` is true and the upload directory
contains the uploaded file; every other remaining entry is a
subdirectory or an entry whose deletion failed. -/
theorem C1_process_success (s : AppState) (up : UploadedFile)
    (bk : Backend) (n : Nat)
    (hs : (save_uploaded_file up s.fs).raised = none)
    (hl : bk.loadResult = Except.ok n)
    (hb : bk.buildResult = Except.ok ()) :
    (step (UserAction.processDoc (some up) bk)
        s).state.session.vector_store_ready = true ∧
    ({ name := up.name, kind := EntryKind.file,
       unlinkFails := false } : Entry) ∈
      (step (UserAction.processDoc (some up) bk) s).state.fs.dataDir ∧
    ∀ e ∈ (step (UserAction.processDoc (some up) bk) s).state.fs.dataDir,
      e.name ≠ up.name → (e.kind = EntryKind.dir ∨ e.unlinkFails = true) := by
  have hsb := sidebar_process_success (s := s) hs hl hb
  have hfs : (step (UserAction.processDoc (some up) bk) s).state.fs =
      (save_uploaded_file up s.fs).fs := by
    rw [step_state_fs, hsb]
  have hsess : (step (UserAction.processDoc (some up) bk)
      s).state.session = { vector_store_ready := true } := by
    rw [step_state_session, hsb]
  refine ⟨?_, ?_, ?_⟩
  · rw [hsess]
  · rw [hfs, save_raised_none_dataDir hs]
    exact List.mem_append_right _ (List.mem_singleton_self _)
  · intro e he hne
    rw [hfs, save_raised_none_dataDir hs] at he
    rcases List.mem_append.mp he with h1 | h1
    · exact afterClear_mem (List.mem_of_mem_filter h1)
    · rcases List.mem_singleton.mp h1 with rfl
      exact absurd rfl hne

/-- C1 witness: the amended theorem applied to a concrete successful
process action. -/
theorem C1_witness :
    (step (UserAction.processDoc (some upDoc) bkOk)
        sReady).state.session.vector_store_ready = true ∧
    ({ name := upDoc.name, kind := EntryKind.file,
       unlinkFails := false } : Entry) ∈
      (step (UserAction.processDoc (some upDoc) bkOk)
        sReady).state.fs.dataDir ∧
    ∀ e ∈ (step (UserAction.processDoc (some upDoc) bkOk)
        sReady).state.fs.dataDir,
      e.name ≠ upDoc.name →
        (e.kind = EntryKind.dir ∨ e.unlinkFails = true) :=
  C1_process_success sReady upDoc bkOk 3 (by decide) rfl rfl

/-- C2: after a Save API Key action with a non-empty key (and a writable
`.env`), the `.env` file exists and holds `GROQ_API_KEY = key`, and
`os.environ["GROQ_API_KEY"]` equals that value. -/
theorem C2_save_key (s : AppState) (key : String) (hk : key ≠ "")
    (hw : s.fs.envWritable = true) :
    (step (UserAction.saveKey key) s).state.fs.envFilePresent = true ∧
    (step (UserAction.saveKey key) s).state.fs.envGroqKey = some key ∧
    (step (UserAction.saveKey key) s).state.env.groqEnv = some key := by
  have hki : (key != "") = true := by simpa using hk
  have hsb : sidebar (UserAction.saveKey key) s =
      { state :=
          { s with
            fs :=
              { s.fs with
                envFilePresent := true,
                envGroqKey := some key },
            env := { groqEnv := some key } },
        msgs := [Msg.successKeySaved], uncaught := none } := by
    simp [sidebar, hki, save_api_key, hw]
  have h0 : (sidebar (UserAction.saveKey key) s).uncaught = none := by
    rw [hsb]
  refine ⟨?_, ?_, ?_⟩
  · rw [step_state_fs, hsb]
  · rw [step_state_fs, hsb]
  · rw [step_state_of_none h0, hsb]
    rfl

/-- C2 witness: the theorem applied to a concrete non-empty key. -/
theorem C2_witness :
    (step (UserAction.saveKey "secret")
        sReady).state.fs.envFilePresent = true ∧
    (step (UserAction.saveKey "secret")
        sReady).state.fs.envGroqKey = some "secret" ∧
    (step (UserAction.saveKey "secret")
        sReady).state.env.groqEnv = some "secret" :=
  C2_save_key sReady "secret" (by decide) rfl

/-- C6: a Save API Key action with the empty input shows the error
banner, leaves the file system (hence `.env`) untouched, and leaves the
whole state exactly as an actionless rerun would (so the handler itself
modifies neither `.env` nor the environment variable). -/
theorem C6_empty_key (s : AppState) :
    (step (UserAction.saveKey "") s).state.fs = s.fs ∧
    (step (UserAction.saveKey "") s).state =
      (step UserAction.idle s).state ∧
    (step (UserAction.saveKey "") s).msgs =
      Msg.errorEnterValidKey :: (step UserAction.idle s).msgs ∧
    (step (UserAction.saveKey "") s).searchCalled = false := by
  have hsb : sidebar (UserAction.saveKey "") s =
      { state := s, msgs := [Msg.errorEnterValidKey],
        uncaught := none } := rfl
  have hu : (sidebar (UserAction.saveKey "") s).uncaught = none := rfl
  have hui : (sidebar UserAction.idle s).uncaught = none := rfl
  have hmp : mainPane (UserAction.saveKey "") s =
      mainPane UserAction.idle s := rfl
  refine ⟨?_, ?_, ?_, ?_⟩
  · rw [step_state_fs, hsb]
  · rw [step_state_of_none hu, step_state_of_none hui, hsb]
    rfl
  · simp [step, hu, hui, hsb, hmp, sidebar]
  · have hc : (step (UserAction.saveKey "") s).searchCalled =
        (mainPane (UserAction.saveKey "") s).searchCalled := rfl
    rw [hc, hmp]
    unfold mainPane
    split
    · rfl
    split
    · rfl
    rfl

/-- C3: in any script run, the query UI (query input and Get Answer
button) is rendered only when the credential is present (truthy
`GROQ_API_KEY`) and `vector_store_ready` is true at the gating check;
and `search_and_summarize` can only have been invoked in a run whose
query UI was rendered.  In particular while the flag is false the query
UI is never rendered and the search collaborator never invoked. -/
theorem C3_query_gating (a : UserAction) (s : AppState) :
    ((step a s).queryUIShown = true →
      getenvTruthy (step a s).state.env.groqEnv = true ∧
      (step a s).state.session.vector_store_ready = true) ∧
    ((step a s).searchCalled = true → (step a s).queryUIShown = true) := by
  cases hu : (sidebar a s).uncaught with
  | some e =>
    refine ⟨fun h => ?_, fun h => ?_⟩ <;> simp [step, hu] at h
  | none =>
    have hq : (step a s).queryUIShown =
        (mainPane a (sidebar a s).state).queryUIShown := by simp [step, hu]
    have hc : (step a s).searchCalled =
        (mainPane a (sidebar a s).state).searchCalled := by simp [step, hu]
    have hst : (step a s).state =
        (mainPane a (sidebar a s).state).state := by simp [step, hu]
    refine ⟨fun h => ?_, fun h => ?_⟩
    · rw [hq] at h
      rw [hst]
      exact mainPane_shown_gate a _ h
    · rw [hc] at h
      rw [hq]
      exact mainPane_called_shown a _ h

/-- C3 witness: in a ready state, the query UI is rendered, and the
theorem yields that the credential is present and the flag true. -/
theorem C3_witness :
    getenvTruthy (step UserAction.idle sReady).state.env.groqEnv = true ∧
    (step UserAction.idle sReady).state.session.vector_store_ready =
      true :=
  (C3_query_gating UserAction.idle sReady).1 (by decide)

/-- C4: `vector_store_ready` starts false; a step can only turn it true
when the action is a Process Document whose save, load and build all
succeed; and once true it stays true for the rest of the session (no
failed build or new upload resets it). -/
theorem C4_flag_lifecycle :
    (∀ fs pe, (initialState fs pe).session.vector_store_ready = false) ∧
    (∀ a s, (step a s).state.session.vector_store_ready = true →
      s.session.vector_store_ready = true ∨ processSuccess a s) ∧
    (∀ s acts, s.session.vector_store_ready = true →
      (run s acts).session.vector_store_ready = true) := by
  refine ⟨fun fs pe => rfl, ?_, ?_⟩
  · intro a s h
    rw [step_state_session] at h
    cases a with
    | idle => exact Or.inl h
    | getAnswer q res => exact Or.inl h
    | saveKey input =>
      by_cases hi : (input != "") = true
      · cases hsk : save_api_key input s.fs s.env with
        | ok fe =>
          left
          simpa [sidebar, hi, hsk] using h
        | error e =>
          left
          simpa [sidebar, hi, hsk] using h
      · left
        simpa [sidebar, hi] using h
    | processDoc u bk =>
      cases u with
      | none => exact Or.inl h
      | some up =>
        cases hr : (save_uploaded_file up s.fs).raised with
        | some e =>
          left
          simpa [sidebar, hr] using h
        | none =>
          cases hl : bk.loadResult with
          | error e =>
            left
            simpa [sidebar, hr, hl] using h
          | ok n =>
            cases hb : bk.buildResult with
            | error e =>
              left
              simpa [sidebar, hr, hl, hb] using h
            | ok u2 =>
              right
              cases u2
              exact ⟨up, bk, rfl, hr, ⟨n, hl⟩, hb⟩
  · intro s acts h
    induction acts generalizing s with
    | nil => exact h
    | cons a rest ih =>
      exact ih _ (by rw [step_state_session]; exact sidebar_session_mono a s h)

/-- C4 witness: the flag is false initially; a step from a ready state
keeps it true (instantiating the other two conjuncts). -/
theorem C4_witness :
    (initialState sReady.fs sReady.env).session.vector_store_ready =
      false ∧
    (sReady.session.vector_store_ready = true ∨
      processSuccess UserAction.idle sReady) ∧
    (run sReady [UserAction.idle]).session.vector_store_ready = true :=
  ⟨C4_flag_lifecycle.1 sReady.fs sReady.env,
   C4_flag_lifecycle.2.1 UserAction.idle sReady (by decide),
   C4_flag_lifecycle.2.2 sReady [UserAction.idle] (by decide)⟩

/-- C7: a Get Answer action with the empty query never invokes the
search collaborator, and whenever the query UI is rendered the warning
is shown. -/
theorem C7_empty_query (s : AppState) (res : Except String String) :
    (step (UserAction.getAnswer "" res) s).searchCalled = false ∧
    ((step (UserAction.getAnswer "" res) s).queryUIShown = true →
      Msg.warningEnterQuery ∈ (step (UserAction.getAnswer "" res) s).msgs) := by
  have hc : (step (UserAction.getAnswer "" res) s).searchCalled =
      (mainPane (UserAction.getAnswer "" res) s).searchCalled := rfl
  have hq : (step (UserAction.getAnswer "" res) s).queryUIShown =
      (mainPane (UserAction.getAnswer "" res) s).queryUIShown := rfl
  have hm : (step (UserAction.getAnswer "" res) s).msgs =
      (mainPane (UserAction.getAnswer "" res) s).msgs := rfl
  constructor
  · rw [hc]
    unfold mainPane
    split
    · rfl
    split
    · rfl
    simp
  · intro h
    rw [hq] at h
    rw [hm]
    by_cases h1 : getenvTruthy (load_dotenv s).env.groqEnv = false
    · unfold mainPane at h
      rw [if_pos h1] at h
      simp at h
    · by_cases h2 : (load_dotenv s).session.vector_store_ready = false
      · unfold mainPane at h
        rw [if_neg h1, if_pos h2] at h
        simp at h
      · unfold mainPane
        rw [if_neg h1, if_neg h2]
        simp

/-- C7 witness: the theorem applied in a ready state, where the query UI
is rendered. -/
theorem C7_witness :
    Msg.warningEnterQuery ∈
      (step (UserAction.getAnswer "" (Except.ok "x")) sReady).msgs :=
  (C7_empty_query sReady (Except.ok "x")).2 (by decide)

/-- C5 counterexample: uploading `a.txt` and then `b.txt` into a
directory that contains a subdirectory leaves `sub` as well as `b.txt`,
refuting "the upload directory contains only file B". -/
theorem C5_counterexample :
    (save_uploaded_file { name := "a.txt" } sSubdir.fs).raised = none ∧
    (save_uploaded_file { name := "b.txt" }
        (save_uploaded_file { name := "a.txt" } sSubdir.fs).fs).raised =
      none ∧
    ¬ (save_uploaded_file { name := "b.txt" }
        (save_uploaded_file { name := "a.txt" } sSubdir.fs).fs).fs.dataDir =
      [{ name := "b.txt", kind := EntryKind.file, unlinkFails := false }] := by
  refine ⟨by decide, by decide, by decide⟩

/-- C5 (amended): after two successive successful uploads of A then B
(with distinct names), the upload directory contains file B and no
entry named A; entries other than B that remain (subdirectories or
undeletable entries) predate the uploads. -/
theorem C5_second_upload (fs : Fs) (A B : UploadedFile)
    (hAB : A.name ≠ B.name)
    (h1 : (save_uploaded_file A fs).raised = none)
    (h2 : (save_uploaded_file B
        (save_uploaded_file A fs).fs).raised = none) :
    ({ name := B.name, kind := EntryKind.file,
       unlinkFails := false } : Entry) ∈
      (save_uploaded_file B (save_uploaded_file A fs).fs).fs.dataDir ∧
    ∀ e ∈ (save_uploaded_file B (save_uploaded_file A fs).fs).fs.dataDir,
      e.name ≠ A.name := by
  constructor
  · rw [save_raised_none_dataDir h2]
    exact List.mem_append_right _ (List.mem_singleton_self _)
  · intro e he
    rw [save_raised_none_dataDir h2] at he
    rcases List.mem_append.mp he with h3 | h3
    · have h4 : e ∈ afterClear (save_uploaded_file A fs).fs :=
        List.mem_of_mem_filter h3
      have h5 : e ∈ (save_uploaded_file A fs).fs.dataDir :=
        mem_of_mem_afterClear (save_dataDirPresent A fs) h4
      rw [save_raised_none_dataDir h1] at h5
      rcases List.mem_append.mp h5 with h6 | h6
      · have h7 := List.of_mem_filter h6
        simpa using h7
      · rcases List.mem_singleton.mp h6 with rfl
        rcases afterClear_mem h4 with h7 | h7 <;> simp at h7
    · rcases List.mem_singleton.mp h3 with rfl
      exact fun hn => hAB hn.symm

/-- C5 witness: the amended theorem applied to concrete successive
uploads into a directory holding a subdirectory. -/
theorem C5_witness :
    ({ name := "b.txt", kind := EntryKind.file,
       unlinkFails := false } : Entry) ∈
      (save_uploaded_file { name := "b.txt" }
        (save_uploaded_file { name := "a.txt" } sSubdir.fs).fs).fs.dataDir ∧
    ∀ e ∈ (save_uploaded_file { name := "b.txt" }
        (save_uploaded_file { name := "a.txt" } sSubdir.fs).fs).fs.dataDir,
      e.name ≠ "a.txt" :=
  C5_second_upload sSubdir.fs { name := "a.txt" } { name := "b.txt" }
    (by decide) (by decide) (by decide)

/-- C8: if `save_uploaded_file` succeeds but `load_all_documents` or the
vector-store build raises, the Process Document action catches the
exception and shows an error, the upload directory is left non-empty
(it holds at least the fresh upload), and `vector_store_ready` keeps its
prior value of false. -/
theorem C8_failed_build (s : AppState) (up : UploadedFile) (bk : Backend)
    (hflag : s.session.vector_store_ready = false)
    (hs : (save_uploaded_file up s.fs).raised = none)
    (hfail : (∃ e, bk.loadResult = Except.error e) ∨
      (∃ e, bk.buildResult = Except.error e)) :
    (step (UserAction.processDoc (some up) bk) s).uncaught = none ∧
    (step (UserAction.processDoc (some up) bk)
        s).state.session.vector_store_ready = false ∧
    (step (UserAction.processDoc (some up) bk) s).state.fs.dataDir ≠ [] ∧
    ∃ e, Msg.errorProcessing e ∈
      (step (UserAction.processDoc (some up) bk) s).msgs := by
  cases hl : bk.loadResult with
  | error e =>
    have hsb : sidebar (UserAction.processDoc (some up) bk) s =
        { state := { s with fs := (save_uploaded_file up s.fs).fs },
          msgs := (save_uploaded_file up s.fs).msgs ++
            [Msg.errorProcessing e],
          uncaught := none } := by
      simp [sidebar, hs, hl]
    obtain ⟨hu, hsess, hfs, hmsgs⟩ := step_of_sidebar_none hsb
    refine ⟨hu, ?_, ?_, ⟨e, ?_⟩⟩
    · rw [hsess]
      exact hflag
    · rw [hfs]
      show (save_uploaded_file up s.fs).fs.dataDir ≠ []
      rw [save_raised_none_dataDir hs]
      simp
    · rw [hmsgs]
      simp
  | ok n =>
    rcases hfail with ⟨e, he⟩ | ⟨e, hb⟩
    · rw [hl] at he
      cases he
    · have hsb : sidebar (UserAction.processDoc (some up) bk) s =
          { state := { s with fs := (save_uploaded_file up s.fs).fs },
            msgs := (save_uploaded_file up s.fs).msgs ++
              [Msg.writeLoadedChunks n, Msg.errorProcessing e],
            uncaught := none } := by
        simp [sidebar, hs, hl, hb]
      obtain ⟨hu, hsess, hfs, hmsgs⟩ := step_of_sidebar_none hsb
      refine ⟨hu, ?_, ?_, ⟨e, ?_⟩⟩
      · rw [hsess]
        exact hflag
      · rw [hfs]
        show (save_uploaded_file up s.fs).fs.dataDir ≠ []
        rw [save_raised_none_dataDir hs]
        simp
      · rw [hmsgs]
        simp

/-- C8 witness: the theorem applied to a concrete failing load. -/
theorem C8_witness :
    (step (UserAction.processDoc (some upDoc) bkLoadFail)
        sSubdir).uncaught = none ∧
    (step (UserAction.processDoc (some upDoc) bkLoadFail)
        sSubdir).state.session.vector_store_ready = false ∧
    (step (UserAction.processDoc (some upDoc) bkLoadFail)
        sSubdir).state.fs.dataDir ≠ [] ∧
    ∃ e, Msg.errorProcessing e ∈
      (step (UserAction.processDoc (some upDoc) bkLoadFail)
        sSubdir).msgs :=
  C8_failed_build sSubdir upDoc bkLoadFail rfl (by decide)
    (Or.inl ⟨"boom", rfl⟩)

/-- C9 counterexample: the Save API Key handler has no `try/except`, so
when writing `.env` raises, the exception propagates out of the handler
and aborts the run, refuting "every user-triggered action catches its
exceptions". -/
theorem C9_counterexample :
    (step (UserAction.saveKey "k") sUnwritable).uncaught =
      some "OSError" := by
  decide

/-- C9 (amended): the Process Document and Get Answer handlers wrap
their bodies in `try/except`, so they never propagate an exception out
of a run; the Save API Key handler propagates none only when the `.env`
write succeeds, because it has no `try/except`. -/
theorem C9_handlers_catch (s : AppState) (upo : Option UploadedFile)
    (bk : Backend) (q : String) (res : Except String String) :
    (step (UserAction.processDoc upo bk) s).uncaught = none ∧
    (step (UserAction.getAnswer q res) s).uncaught = none ∧
    (∀ key, s.fs.envWritable = true →
      (step (UserAction.saveKey key) s).uncaught = none) := by
  refine ⟨?_, ?_, ?_⟩
  · have hu : (sidebar (UserAction.processDoc upo bk) s).uncaught =
        none := by
      cases upo with
      | none => rfl
      | some up =>
        cases hr : (save_uploaded_file up s.fs).raised with
        | some e => simp [sidebar, hr]
        | none =>
          cases hl : bk.loadResult with
          | error e => simp [sidebar, hr, hl]
          | ok n =>
            cases hb : bk.buildResult with
            | error e => simp [sidebar, hr, hl, hb]
            | ok u2 => simp [sidebar, hr, hl, hb]
    simp [step, hu]
  · have hu : (sidebar (UserAction.getAnswer q res) s).uncaught =
        none := rfl
    simp [step, hu]
  · intro key hw
    by_cases hk : (key != "") = true
    · have hu : (sidebar (UserAction.saveKey key) s).uncaught = none := by
        simp [sidebar, hk, save_api_key, hw]
      simp [step, hu]
    · have hu : (sidebar (UserAction.saveKey key) s).uncaught = none := by
        simp [sidebar, hk]
      simp [step, hu]

/-- C9 witness: the amended theorem at concrete actions, including a
successful save. -/
theorem C9_witness :
    (step (UserAction.processDoc (some upDoc) bkOk) sReady).uncaught =
      none ∧
    (step (UserAction.getAnswer "q" (Except.ok "a")) sReady).uncaught =
      none ∧
    (step (UserAction.saveKey "k") sReady).uncaught = none :=
  ⟨(C9_handlers_catch sReady (some upDoc) bkOk "q" (Except.ok "a")).1,
   (C9_handlers_catch sReady (some upDoc) bkOk "q" (Except.ok "a")).2.1,
   (C9_handlers_catch sReady (some upDoc) bkOk "q"
      (Except.ok "a")).2.2 "k" rfl⟩

/-- C10: `save_uploaded_file` deletes only regular files and symlinks:
every subdirectory of the upload directory is still present after the
call, whether or not the final write raises. -/
theorem C10_subdirs_preserved (up : UploadedFile) (fs : Fs) (e : Entry)
    (hp : fs.dataDirPresent = true) (he : e ∈ fs.dataDir)
    (hk : e.kind = EntryKind.dir) :
    e ∈ (save_uploaded_file up fs).fs.dataDir := by
  have hac : e ∈ afterClear fs := mem_afterClear_of_dir hp he hk
  by_cases hw : writeRaises up fs
  · rw [save_raises_dataDir hw]
    exact hac
  · have hname : e.name ≠ up.name := fun hn => hw ⟨e, hac, hn, hk⟩
    simp only [save_uploaded_file, hw, if_false]
    refine List.mem_append_left _ ?_
    rw [List.mem_filter]
    exact ⟨hac, by simpa using hname⟩

/-- C10 witness: the subdirectory `sub` survives a concrete upload. -/
theorem C10_witness :
    ({ name := "sub", kind := EntryKind.dir,
       unlinkFails := false } : Entry) ∈
      (save_uploaded_file upDoc sSubdir.fs).fs.dataDir :=
  C10_subdirs_preserved upDoc sSubdir.fs
    { name := "sub", kind := EntryKind.dir, unlinkFails := false }
    rfl (by decide) rfl

end RAGApp
